import Mathlib

/-!
Verification development for the curriculum-planning application's core:
the Standards Selection Engine, the Weekly Scaffold Planner, the Request
Validator / Worksheet Factory / Domain Models, the Layout/Rendering
Engine, and the frontend progress-blob parser.

The backend components (standards selection, scaffold planning, worksheet
validation/factory/rendering, weekly-plan orchestration) are present in
the repository only through their specification and documentation; their
Lean definitions below are therefore modelled from the spec, as the doc
comments note.  The frontend helper `parseProgress` is embedded directly
from `src/frontend/lib/api.ts`.

Time is modelled in whole weeks as an integer clock: `last_seen` is the
week a standard was last used and cooldown comparisons follow the spec's
`now - last_seen ≥ cooldown_weeks` rule.
-/

namespace Curriculum

/-- A curriculum standard: immutable reference data
`{id, source, subject, grade_level, description}`. -/
structure Standard where
  id : String
  source : String
  subject : String
  grade_level : Nat
  description : String
deriving Repr, DecidableEq

/-- Feedback ratings recorded in the progress blob
(`MASTERED | DEVELOPING | NOT_STARTED | BENCHED`). -/
inductive Feedback where
  | MASTERED
  | DEVELOPING
  | NOT_STARTED
  | BENCHED
deriving Repr, DecidableEq

/-- Per-standard tracking metadata from `standard_metadata`:
`last_seen` (week index), `last_feedback`, `cooldown_weeks`. -/
structure StandardMeta where
  last_seen : Int
  last_feedback : Feedback
  cooldown_weeks : Int
deriving Repr, DecidableEq

/-- `StudentProgress`: mastered/developing id sets plus per-standard
metadata; read-only to the core. -/
structure StudentProgress where
  mastered_standards : List String
  developing_standards : List String
  standard_metadata : List (String × StandardMeta)
deriving Repr

/-- `theme_rules` of `PlanRules`. -/
structure ThemeRules where
  force_weekly_theme : Bool
  theme_subjects : List String
deriving Repr

/-- `PlanRules`: materials, review rules, theme rules, parent notes and
quantity preferences. `allowed_materials` and `parent_notes` are not
selection filters; they pass through to the content collaborator. -/
structure PlanRules where
  allowed_materials : List String
  no_review_mastered_for_weeks : Int
  theme_rules : ThemeRules
  parent_notes : String
  activity_bias : Int
deriving Repr

/-- Metadata lookup for one standard id in the progress blob. -/
def lookupMeta (p : StudentProgress) (sid : String) : Option StandardMeta :=
  p.standard_metadata.lookup sid

/-- Modelled from the spec: the cooldown invariant of §3 for the missing
Standards Selection Engine — a standard whose `last_feedback == MASTERED`
is excluded from candidates until `now - last_seen ≥ cooldown_weeks`. -/
def underCooldown (p : StudentProgress) (now : Int) (sid : String) : Bool :=
  match lookupMeta p sid with
  | some m =>
      m.last_feedback == Feedback.MASTERED
        && decide (now - m.last_seen < m.cooldown_weeks)
  | none => false

/-- Modelled from the spec: priority classes of §4.5 step 3 for the missing
selection engine — `developing_standards` first, entirely new standards
next, mastered standards (past cooldown) last as low-priority review. -/
def priorityRank (p : StudentProgress) (sid : String) : Nat :=
  if sid ∈ p.developing_standards then 0
  else if sid ∈ p.mastered_standards then 2
  else 1

/-- Ordering used by the selection engine: ascending priority rank, ties
broken by ascending standard id (lexicographically by character) for
determinism (§4.5 step 4). -/
def selectionLE (p : StudentProgress) (a b : Standard) : Prop :=
  priorityRank p a.id < priorityRank p b.id
    ∨ (priorityRank p a.id = priorityRank p b.id ∧ a.id.data ≤ b.id.data)

instance (p : StudentProgress) : DecidableRel (selectionLE p) := fun a b =>
  inferInstanceAs (Decidable (priorityRank p a.id < priorityRank p b.id
    ∨ (priorityRank p a.id = priorityRank p b.id ∧ a.id.data ≤ b.id.data)))

/-- Modelled from the spec: the subject filter of §4.5 step 1 — restrict to
the requested subject unless `force_weekly_theme` is set, in which case
restrict to `theme_subjects`. -/
def subjectAllowed (rules : PlanRules) (subject : String) (s : Standard) : Bool :=
  if rules.theme_rules.force_weekly_theme then
    s.subject ∈ rules.theme_rules.theme_subjects
  else s.subject == subject

/-- Grade and subject filter applied to the standard catalog. -/
def passesFilters (rules : PlanRules) (subject : String) (grade : Nat)
    (s : Standard) : Bool :=
  s.grade_level == grade && subjectAllowed rules subject s

/-- Modelled from the spec: §4.5 steps 1–2 for the missing selection
engine — filter the catalog by grade and subject/theme, then exclude
standards currently under cooldown. -/
def eligibleCandidates (catalog : List Standard) (p : StudentProgress)
    (rules : PlanRules) (subject : String) (grade : Nat) (now : Int) :
    List Standard :=
  (catalog.filter (passesFilters rules subject grade)).filter
    (fun s => !(underCooldown p now s.id))

/-- Modelled from the spec: §4.5 step 4 ordering — eligible candidates in
priority order, ties by ascending standard id. -/
def orderedCandidates (catalog : List Standard) (p : StudentProgress)
    (rules : PlanRules) (subject : String) (grade : Nat) (now : Int) :
    List Standard :=
  List.insertionSort (selectionLE p)
    (eligibleCandidates catalog p rules subject grade now)

/-- Default `limit` of `select` (10 when no limit is given). -/
def defaultSelectionLimit : Nat := 10

/-- Modelled from the spec: `select(student_progress, plan_rules,
requested_subject, grade_level, limit)` of §4.5 for the missing Standards
Selection Engine.  The standard catalog is passed explicitly.  Filter by
grade and subject/theme, exclude cooldown, order by priority with id
tie-break, truncate to `limit`. -/
def selectStandards (catalog : List Standard) (p : StudentProgress)
    (rules : PlanRules) (subject : String) (grade : Nat) (now : Int)
    (limit : Nat) : List Standard :=
  (orderedCandidates catalog p rules subject grade now).take limit

/-- `select` with the default limit of 10. -/
def selectStandardsDefault (catalog : List Standard) (p : StudentProgress)
    (rules : PlanRules) (subject : String) (grade : Nat) (now : Int) :
    List Standard :=
  selectStandards catalog p rules subject grade now defaultSelectionLimit

end Curriculum

namespace Curriculum

/-- One entry of `daily_assignments`: `{day, standard_ids[], focus}`. -/
structure DayAssignment where
  day : String
  standard_ids : List String
  focus : String
deriving Repr, DecidableEq

/-- `weekly_overview` of the scaffold envelope:
`{before_you_start, summary}`. -/
structure WeeklyOverview where
  before_you_start : String
  summary : String
deriving Repr, DecidableEq

/-- Scaffold output envelope `{weekly_overview, daily_assignments}`. -/
structure Scaffold where
  weekly_overview : WeeklyOverview
  daily_assignments : List DayAssignment
deriving Repr, DecidableEq

/-- The five weekday names, in order. -/
def weekdayName (i : Nat) : String :=
  ["Monday", "Tuesday", "Wednesday", "Thursday", "Friday"].getD i "Monday"

/-- Modelled from the spec: the structural well-formedness check the
missing planner core applies to the scaffold collaborator's output — the
envelope must cover the 5 weekdays; anything else is malformed and
triggers the fallback stage. -/
def wellFormedScaffold (raw : Scaffold) : Bool :=
  raw.daily_assignments.length == 5

/-- Modelled from the spec: the repair half of the missing planner core's
validate/repair step (§4.6) — every `standard_id` referenced must come
from the candidate list, so foreign ids are dropped; a day left with an
empty assignment list is a valid state, not an error. -/
def repairScaffold (candidates : List Standard) (raw : Scaffold) : Scaffold :=
  { raw with
      daily_assignments := raw.daily_assignments.map fun d =>
        { d with
            standard_ids :=
              d.standard_ids.filter (fun sid => sid ∈ candidates.map (·.id)) } }

/-- Modelled from the spec: the fallback stage of §4.6 for the missing
planner — degrade to a naive round-robin, one candidate standard per
weekday, wrapping if fewer than 5 candidates exist, to guarantee every
day has content. -/
def fallbackScaffold (candidates : List Standard) : Scaffold :=
  { weekly_overview :=
      { before_you_start := "Review the attached standards"
        summary := "Fallback weekly plan" }
    daily_assignments := (List.range 5).map fun i =>
      { day := weekdayName i
        standard_ids :=
          (candidates[i % candidates.length]?.map (·.id)).toList
        focus := "Practice and review" } }

/-- Modelled from the spec: the scaffold stage dispatcher of §4.6 —
collaborator error/timeout (`none`) or malformed output triggers the
fallback stage; accepted output goes through validate/repair. -/
def scaffoldStage (candidates : List Standard) (collab : Option Scaffold) :
    Scaffold :=
  match collab with
  | none => fallbackScaffold candidates
  | some raw =>
      if wellFormedScaffold raw then repairScaffold candidates raw
      else fallbackScaffold candidates

end Curriculum

namespace Curriculum

/-- Error taxonomy of §7: malformed resource requests raise
`validationError`, an unknown worksheet kind raises the distinct
`unsupportedTypeError`, and layout/filesystem failures raise
`renderError`. -/
inductive CoreError where
  | validationError (message : String)
  | unsupportedTypeError (kind : String)
  | renderError (message : String)
deriving Repr, DecidableEq

/-- Math operator: `"+"` or `"-"` only. -/
inductive Operator where
  | plus
  | minus
deriving Repr, DecidableEq

/-- A validated two-operand problem. -/
structure Problem where
  operand_one : Int
  operand_two : Int
  operator : Operator
deriving Repr, DecidableEq

/-- Untrusted two-operand problem payload (operator still a raw string). -/
structure ProblemPayload where
  operand_one : Int
  operand_two : Int
  operator : String
deriving Repr, DecidableEq

/-- Untrusted math worksheet request payload (`mathWorksheet`). -/
structure MathPayload where
  title : Option String
  instructions : Option String
  problems : List ProblemPayload
  metadata : List (String × String)
deriving Repr, DecidableEq

/-- Validated math worksheet content model. -/
structure MathWorksheet where
  title : String
  instructions : String
  problems : List Problem
  metadata : List (String × String)
deriving Repr, DecidableEq

/-- A validated reading question with effective response lines. -/
structure ReadingQuestion where
  prompt : String
  response_lines : Int
deriving Repr, DecidableEq

/-- Untrusted reading question payload (`response_lines` optional and
possibly below 1). -/
structure ReadingQuestionPayload where
  prompt : String
  response_lines : Option Int
deriving Repr, DecidableEq

/-- A validated vocabulary entry. -/
structure VocabularyEntry where
  term : String
  definition : Option String
  response_lines : Int
deriving Repr, DecidableEq

/-- Untrusted vocabulary entry payload. -/
structure VocabularyPayload where
  term : String
  definition : Option String
  response_lines : Option Int
deriving Repr, DecidableEq

/-- Untrusted reading worksheet request payload (`readingWorksheet`). -/
structure ReadingPayload where
  passage_title : String
  passage : String
  questions : List ReadingQuestionPayload
  vocabulary : List VocabularyPayload
  title : Option String
  instructions : Option String
  metadata : List (String × String)
deriving Repr, DecidableEq

/-- Validated reading worksheet content model. -/
structure ReadingWorksheet where
  passage_title : String
  passage : String
  questions : List ReadingQuestion
  vocabulary : List VocabularyEntry
  title : String
  instructions : String
  metadata : List (String × String)
deriving Repr, DecidableEq

/-- Whitespace test used by trimming. -/
def isSpaceChar (c : Char) : Bool :=
  c == ' ' || c == '\t' || c == '\n' || c == '\r'

/-- Whitespace trimming on both ends, as the validators apply it before
emptiness checks (a structural model of string trimming). -/
def strTrim (s : String) : String :=
  String.mk
    (((s.data.dropWhile isSpaceChar).reverse.dropWhile isSpaceChar).reverse)

/-- Modelled from the spec: question normalization of the missing
validator (§4.1) — `response_lines` defaults to 2 when omitted and is
clamped to at least 1. -/
def normalizeQuestion (q : ReadingQuestionPayload) : ReadingQuestion :=
  { prompt := q.prompt, response_lines := max 1 (q.response_lines.getD 2) }

/-- Modelled from the spec: vocabulary normalization of the missing
validator (§4.1) — `definition` optional; `response_lines` defaults to 1
(used when no definition is given) and is clamped to at least 1. -/
def normalizeVocabulary (v : VocabularyPayload) : VocabularyEntry :=
  { term := v.term
    definition := v.definition
    response_lines := max 1 (v.response_lines.getD 1) }

/-- Modelled from the spec: the missing math request validator (§4.1) —
at least one problem, each problem's operator in `{"+","-"}`; defaults
for title/instructions follow the documented generator signature. -/
def validateMathWorksheet (p : MathPayload) :
    Except CoreError MathWorksheet :=
  if p.problems.isEmpty then
    .error (.validationError "At least one problem is required")
  else if !(p.problems.all fun q => q.operator == "+" || q.operator == "-") then
    .error (.validationError "Operator must be one of + or -")
  else
    .ok
      { title := p.title.getD "Two-Operand Practice"
        instructions := p.instructions.getD
          "Solve each problem. Show your work if needed."
        problems := p.problems.map fun q =>
          { operand_one := q.operand_one
            operand_two := q.operand_two
            operator := if q.operator == "+" then .plus else .minus }
        metadata := p.metadata }

/-- Modelled from the spec: the missing reading request validator (§4.1)
— non-empty passage after trim, at least one question, each question
with a non-empty prompt, each vocabulary entry with a non-empty term;
questions and vocabulary are normalized per §4.1. -/
def validateReadingWorksheet (p : ReadingPayload) :
    Except CoreError ReadingWorksheet :=
  if strTrim p.passage == "" then
    .error (.validationError "Reading passage text is required")
  else if p.questions.isEmpty then
    .error (.validationError "At least one reading question is required")
  else if !(p.questions.all fun q => !(strTrim q.prompt == "")) then
    .error (.validationError "ReadingQuestion requires a prompt")
  else if !(p.vocabulary.all fun v => !(strTrim v.term == "")) then
    .error (.validationError "VocabularyEntry requires a term")
  else
    .ok
      { passage_title := p.passage_title
        passage := p.passage
        questions := p.questions.map normalizeQuestion
        vocabulary := p.vocabulary.map normalizeVocabulary
        title := p.title.getD "Reading Comprehension"
        instructions := p.instructions.getD
          "Read the passage carefully, then answer the questions and review the vocabulary."
        metadata := p.metadata }

/-- Untrusted Venn diagram request payload (`vennDiagram`). -/
structure VennPayload where
  left_label : String
  right_label : String
  both_label : Option String
  word_bank : List String
  left_items : List String
  right_items : List String
  both_items : List String
  title : Option String
  instructions : Option String
  metadata : List (String × String)
deriving Repr, DecidableEq

/-- Validated Venn diagram worksheet content model. -/
structure VennWorksheet where
  left_label : String
  right_label : String
  both_label : String
  word_bank : List String
  left_items : List String
  right_items : List String
  both_items : List String
  title : String
  instructions : String
  metadata : List (String × String)
deriving Repr, DecidableEq

/-- A feature matrix item: row name plus answer-key properties. -/
structure FeatureMatrixItem where
  name : String
  checked_properties : List String
deriving Repr, DecidableEq

/-- Untrusted feature matrix request payload (`featureMatrix`). -/
structure FeatureMatrixPayload where
  items : List FeatureMatrixItem
  properties : List String
  show_answers : Bool
  title : Option String
  instructions : Option String
  metadata : List (String × String)
deriving Repr, DecidableEq

/-- Validated feature matrix worksheet content model. -/
structure FeatureMatrixWorksheet where
  items : List FeatureMatrixItem
  properties : List String
  show_answers : Bool
  title : String
  instructions : String
  metadata : List (String × String)
deriving Repr, DecidableEq

/-- One odd-one-out row: the items to compare plus optional answer key. -/
structure OddOneOutRow where
  items : List String
  odd_item : Option String
  explanation : Option String
deriving Repr, DecidableEq

/-- Untrusted odd-one-out request payload (`oddOneOut`). -/
structure OddOneOutPayload where
  rows : List OddOneOutRow
  show_answers : Bool
  reasoning_lines : Option Int
  title : Option String
  instructions : Option String
  metadata : List (String × String)
deriving Repr, DecidableEq

/-- Validated odd-one-out worksheet content model. -/
structure OddOneOutWorksheet where
  rows : List OddOneOutRow
  show_answers : Bool
  reasoning_lines : Int
  title : String
  instructions : String
  metadata : List (String × String)
deriving Repr, DecidableEq

/-- Untrusted tree map branch payload: label with either pre-filled
slots or a blank `slot_count`. -/
structure TreeMapBranchPayload where
  label : String
  slots : List (Option String)
  slot_count : Option Nat
deriving Repr, DecidableEq

/-- A validated tree map branch: label plus slots (`none` = blank). -/
structure TreeMapBranch where
  label : String
  slots : List (Option String)
deriving Repr, DecidableEq

/-- Untrusted tree map request payload (`treeMap`). -/
structure TreeMapPayload where
  root_label : String
  branches : List TreeMapBranchPayload
  word_bank : List String
  title : Option String
  instructions : Option String
  metadata : List (String × String)
deriving Repr, DecidableEq

/-- Validated tree map worksheet content model. -/
structure TreeMapWorksheet where
  root_label : String
  branches : List TreeMapBranch
  word_bank : List String
  title : String
  instructions : String
  metadata : List (String × String)
deriving Repr, DecidableEq

/-- Modelled from the spec: the missing Venn diagram validator (§4.1) —
non-empty `left_label` and `right_label`; `both_label` defaults to
`"Both"`. -/
def validateVennDiagram (p : VennPayload) : Except CoreError VennWorksheet :=
  if strTrim p.left_label == "" then
    .error (.validationError "Left label is required")
  else if strTrim p.right_label == "" then
    .error (.validationError "Right label is required")
  else
    .ok
      { left_label := p.left_label
        right_label := p.right_label
        both_label := p.both_label.getD "Both"
        word_bank := p.word_bank
        left_items := p.left_items
        right_items := p.right_items
        both_items := p.both_items
        title := p.title.getD "Venn Diagram"
        instructions := p.instructions.getD
          "Sort the words into the correct section of the diagram."
        metadata := p.metadata }

/-- Modelled from the spec: the missing feature matrix validator (§4.1)
— at least one item and at least one property. -/
def validateFeatureMatrix (p : FeatureMatrixPayload) :
    Except CoreError FeatureMatrixWorksheet :=
  if p.items.isEmpty then
    .error (.validationError "At least one item is required")
  else if p.properties.isEmpty then
    .error (.validationError "At least one property is required")
  else
    .ok
      { items := p.items
        properties := p.properties
        show_answers := p.show_answers
        title := p.title.getD "Feature Matrix"
        instructions := p.instructions.getD
          "Check the boxes that apply to each item."
        metadata := p.metadata }

/-- Modelled from the spec: the missing odd-one-out validator (§4.1) —
at least one row, each row with at least 3 items; `reasoning_lines`
defaults to 2 and is clamped to at least 1. -/
def validateOddOneOut (p : OddOneOutPayload) :
    Except CoreError OddOneOutWorksheet :=
  if p.rows.isEmpty then
    .error (.validationError "At least one row is required")
  else if !(p.rows.all fun r => 3 ≤ r.items.length) then
    .error (.validationError "OddOneOutRow requires at least 3 items")
  else
    .ok
      { rows := p.rows
        show_answers := p.show_answers
        reasoning_lines := max 1 (p.reasoning_lines.getD 2)
        title := p.title.getD "Odd One Out"
        instructions := p.instructions.getD
          "Look at each row and circle the item that does not belong."
        metadata := p.metadata }

/-- Modelled from the spec: tree map branch normalization — a branch
either carries pre-filled `slots` or `slot_count` blank slots
(default 3). -/
def normalizeBranch (b : TreeMapBranchPayload) : TreeMapBranch :=
  { label := b.label
    slots :=
      if b.slots.isEmpty then List.replicate (b.slot_count.getD 3) none
      else b.slots }

/-- Modelled from the spec: the missing tree map validator (§4.1) —
non-empty `root_label`, at least one branch, each branch with a
non-empty label. -/
def validateTreeMap (p : TreeMapPayload) : Except CoreError TreeMapWorksheet :=
  if strTrim p.root_label == "" then
    .error (.validationError "Root label is required")
  else if p.branches.isEmpty then
    .error (.validationError "At least one branch is required")
  else if !(p.branches.all fun b => !(strTrim b.label == "")) then
    .error (.validationError "TreeMapBranch requires a label")
  else
    .ok
      { root_label := p.root_label
        branches := p.branches.map normalizeBranch
        word_bank := p.word_bank
        title := p.title.getD "Tree Map"
        instructions := p.instructions.getD
          "Fill in the tree map using the word bank."
        metadata := p.metadata }

/-- Untrusted resource payload, tagged by worksheet kind. -/
inductive ResourcePayload where
  | math (p : MathPayload)
  | reading (p : ReadingPayload)
  | venn (p : VennPayload)
  | matrix (p : FeatureMatrixPayload)
  | oddOut (p : OddOneOutPayload)
  | tree (p : TreeMapPayload)
deriving Repr, DecidableEq

/-- `Worksheet`: a validated rendered-ready content model, one of the six
kinds, carrying its pass-through metadata. -/
inductive Worksheet where
  | math (w : MathWorksheet)
  | reading (w : ReadingWorksheet)
  | venn (w : VennWorksheet)
  | matrix (w : FeatureMatrixWorksheet)
  | oddOut (w : OddOneOutWorksheet)
  | tree (w : TreeMapWorksheet)
deriving Repr, DecidableEq

/-- The type tag of a worksheet. -/
def Worksheet.kindName : Worksheet → String
  | .math _ => "two_operand"
  | .reading _ => "reading_comprehension"
  | .venn _ => "venn_diagram"
  | .matrix _ => "feature_matrix"
  | .oddOut _ => "odd_one_out"
  | .tree _ => "tree_map"

/-- A worksheet constructor as stored in the factory's dispatch table. -/
def WorksheetCtor : Type := ResourcePayload → Except CoreError Worksheet

/-- A factory registry: a dispatch table mapping a kind string to its
constructor. -/
def Registry : Type := List (String × WorksheetCtor)

/-- Lift a kind-specific validator to a registry constructor; a payload
whose tag does not match the kind is a malformed request. -/
def ctorOf {β : Type} (proj : ResourcePayload → Option β)
    (validate : β → Except CoreError Worksheet) : WorksheetCtor :=
  fun payload =>
    match proj payload with
    | some b => validate b
    | none => .error (.validationError "Payload does not match worksheet kind")

/-- Modelled from the spec: the missing Worksheet Factory's default
dispatch table (§4.2), keyed by the six documented type identifiers. -/
def defaultRegistry : Registry :=
  [("two_operand",
      ctorOf (fun pl => match pl with | .math p => some p | _ => none)
        (fun p => (validateMathWorksheet p).map Worksheet.math)),
   ("reading_comprehension",
      ctorOf (fun pl => match pl with | .reading p => some p | _ => none)
        (fun p => (validateReadingWorksheet p).map Worksheet.reading)),
   ("venn_diagram",
      ctorOf (fun pl => match pl with | .venn p => some p | _ => none)
        (fun p => (validateVennDiagram p).map Worksheet.venn)),
   ("feature_matrix",
      ctorOf (fun pl => match pl with | .matrix p => some p | _ => none)
        (fun p => (validateFeatureMatrix p).map Worksheet.matrix)),
   ("odd_one_out",
      ctorOf (fun pl => match pl with | .oddOut p => some p | _ => none)
        (fun p => (validateOddOneOut p).map Worksheet.oddOut)),
   ("tree_map",
      ctorOf (fun pl => match pl with | .tree p => some p | _ => none)
        (fun p => (validateTreeMap p).map Worksheet.tree))]

/-- Modelled from the spec: `register(kind, constructor)` of §4.2 — adds
a new kind without modifying the dispatch core. -/
def registerKind (registry : Registry) (kind : String) (ctor : WorksheetCtor) :
    Registry :=
  (kind, ctor) :: registry

/-- Modelled from the spec: `create(kind, payload)` of §4.2 for the
missing Worksheet Factory — dispatch on the kind string; an unknown kind
raises the distinct `unsupportedTypeError`, never a generic validation
failure. -/
def factoryCreate (registry : Registry) (kind : String)
    (payload : ResourcePayload) : Except CoreError Worksheet :=
  match registry.lookup kind with
  | some ctor => ctor payload
  | none => .error (.unsupportedTypeError kind)

end Curriculum

namespace Curriculum

/-- Left-pad a string with spaces to the given width (used to right-align
operands by place value). -/
def padLeft (w : Nat) (s : String) : String :=
  String.mk (List.replicate (w - s.length) ' ') ++ s

/-- A horizontal answer line of the given width. -/
def answerLine (w : Nat) : String :=
  String.mk (List.replicate w '_')

/-- The operator glyph. -/
def Operator.symbol : Operator → String
  | .plus => "+"
  | .minus => "-"

/-- Modelled from the spec: math problem layout of §4.4 — problems in up
to 5 columns per row, operand one stacked over operand two, right-aligned
by place value, with an answer line beneath. -/
def renderProblemCell (i : Nat) (p : Problem) : String :=
  let s1 := toString p.operand_one
  let s2 := toString p.operand_two
  let w := max s1.length s2.length + 2
  "row " ++ toString (i / 5) ++ " col " ++ toString (i % 5) ++ " : "
    ++ padLeft w s1 ++ " / " ++ p.operator.symbol ++ padLeft (w - 1) s2
    ++ " / " ++ answerLine w

/-- Fixed-height Name/Date header reserved by the math layout. -/
def headerLines : List String :=
  ["Name: ______________    Date: ______________"]

/-- Deterministic layout of a math worksheet. -/
def mathLines (w : MathWorksheet) : List String :=
  headerLines ++ [w.title, w.instructions]
    ++ w.problems.enum.map (fun ic => renderProblemCell ic.1 ic.2)

/-- Layout of one reading question: prompt plus N blank lines. -/
def questionLines (i : Nat) (q : ReadingQuestion) : List String :=
  (toString (i + 1) ++ ". " ++ q.prompt)
    :: List.replicate q.response_lines.toNat (answerLine 40)

/-- Layout of one vocabulary entry: bold term and colon, then either the
given definition or N blank lines. -/
def vocabularyLines (v : VocabularyEntry) : List String :=
  match v.definition with
  | some d => [v.term ++ ": " ++ d]
  | none => (v.term ++ ":") :: List.replicate v.response_lines.toNat (answerLine 40)

/-- Deterministic layout of a reading worksheet. -/
def readingLines (w : ReadingWorksheet) : List String :=
  headerLines ++ [w.passage_title, w.instructions, w.passage]
    ++ (w.questions.enum.map (fun iq => questionLines iq.1 iq.2)).flatten
    ++ (w.vocabulary.map vocabularyLines).flatten

/-- Deterministic layout of a Venn diagram worksheet: the two labelled
circles with their pre-filled regions and the word bank below. -/
def vennLines (w : VennWorksheet) : List String :=
  headerLines ++ [w.title, w.instructions]
    ++ ["left circle " ++ w.left_label ++ " : " ++ String.intercalate ", " w.left_items,
        "overlap " ++ w.both_label ++ " : " ++ String.intercalate ", " w.both_items,
        "right circle " ++ w.right_label ++ " : " ++ String.intercalate ", " w.right_items,
        "word bank : " ++ String.intercalate ", " w.word_bank]

/-- One feature matrix grid row: the item name followed by a checkbox per
property; `show_answers` pre-marks the item's `checked_properties`. -/
def matrixRow (show_answers : Bool) (properties : List String)
    (it : FeatureMatrixItem) : String :=
  it.name ++ " : " ++ String.intercalate " "
    (properties.map fun pr =>
      if show_answers && pr ∈ it.checked_properties then "[x]" else "[ ]")

/-- Deterministic layout of a feature matrix worksheet. -/
def matrixLines (w : FeatureMatrixWorksheet) : List String :=
  headerLines ++ [w.title, w.instructions]
    ++ ["columns : " ++ String.intercalate " / " w.properties]
    ++ w.items.map (matrixRow w.show_answers w.properties)

/-- Layout of one odd-one-out row: the items inline, the reasoning blank
lines, and, with `show_answers`, the odd item and explanation. -/
def oddRowLines (reasoning : Nat) (show_answers : Bool)
    (r : OddOneOutRow) : List String :=
  (String.intercalate "  " r.items)
    :: List.replicate reasoning (answerLine 40)
    ++ (if show_answers then
          ["answer : " ++ r.odd_item.getD ""
            ++ " because " ++ r.explanation.getD ""]
        else [])

/-- Deterministic layout of an odd-one-out worksheet. -/
def oddLines (w : OddOneOutWorksheet) : List String :=
  headerLines ++ [w.title, w.instructions]
    ++ (w.rows.map (oddRowLines w.reasoning_lines.toNat w.show_answers)).flatten

/-- Layout of one tree map branch: its label and each slot, either
pre-filled or blank. -/
def branchLines (b : TreeMapBranch) : List String :=
  b.label :: b.slots.map (fun s => "  - " ++ (s.getD (answerLine 16)))

/-- Deterministic layout of a tree map worksheet. -/
def treeLines (w : TreeMapWorksheet) : List String :=
  headerLines ++ [w.title, w.instructions, "root : " ++ w.root_label]
    ++ (w.branches.map branchLines).flatten
    ++ ["word bank : " ++ String.intercalate ", " w.word_bank]

/-- Modelled from the spec: the missing Layout/Rendering Engine's single
source of truth for geometry (§4.4) — the deterministic page layout of a
worksheet, as a list of layout lines computed from the content alone. -/
def layoutLines : Worksheet → List String
  | .math w => mathLines w
  | .reading w => readingLines w
  | .venn w => vennLines w
  | .matrix w => matrixLines w
  | .oddOut w => oddLines w
  | .tree w => treeLines w

/-- The vector (PDF) byte content of a worksheet: the serialized layout.
No timestamp or non-deterministically ordered data enters this value. -/
def vectorContent (w : Worksheet) : String :=
  String.intercalate "\n" (layoutLines w)

/-- Simple rolling checksum of rendered content. -/
def checksumOf (s : String) : Nat :=
  s.data.foldl (fun a c => (a * 31 + c.toNat) % 1000000007) 7

/-- `Artifact`: `{kind, format, path, checksum, size, generated_at}` plus
the rendered content itself. -/
structure Artifact where
  kind : String
  format : String
  path : String
  checksum : Nat
  size : Nat
  generated_at : Int
  content : String
deriving Repr, DecidableEq

/-- Modelled from the spec: the missing rendering engine's vector
back-end (§4.4) — emit the worksheet's deterministic layout as a PDF
artifact at the given path; only the bookkeeping field `generated_at`
sees the clock. -/
def renderWorksheetToPdf (w : Worksheet) (path : String) (now : Int) :
    Artifact :=
  { kind := w.kindName
    format := "pdf"
    path := path
    checksum := checksumOf (vectorContent w)
    size := (vectorContent w).length
    generated_at := now
    content := vectorContent w }

/-- Modelled from the spec: the raster back-end — same layout decisions,
raster format tag. -/
def renderWorksheetToImage (w : Worksheet) (path : String) (now : Int) :
    Artifact :=
  { kind := w.kindName
    format := "png"
    path := path
    checksum := checksumOf (vectorContent w)
    size := (vectorContent w).length
    generated_at := now
    content := vectorContent w }

/-- A lesson plan emitted by the day-content collaborator (or a fallback
stub): objective, materials, procedure. -/
structure LessonPlan where
  objective : String
  materials_needed : List String
  procedure : List String
deriving Repr, DecidableEq

/-- Accepted output of the day-content collaborator for one day: a
lesson plan plus zero or more worksheet resource requests, each keyed by
worksheet kind. -/
structure DayContent where
  lesson_plan : LessonPlan
  resources : List (String × ResourcePayload)
deriving Repr

/-- Outcome of one day-content collaborator call: success, a malformed
JSON response, or an infrastructure failure/timeout — the latter two are
the two flavours of DayContentError (§7), both producing a fallback
lesson stub. -/
inductive DayOutcome where
  | content (c : DayContent)
  | malformedJson (message : String)
  | collaboratorFailure (message : String)
deriving Repr

/-- All external-collaborator and environment behaviour consumed by one
weekly-plan generation run: the scaffold collaborator's output (`none` =
error or timeout), the day-content collaborator's per-day outcomes, and
which artifact paths the filesystem/font layer fails on. -/
structure GenerationEnv where
  scaffoldOutput : Option Scaffold
  dayOutcome : Nat → DayOutcome
  renderFailure : String → Option String

/-- Artifact reference attached to a day's resources (`{format, path}`). -/
structure ArtifactRef where
  format : String
  path : String
deriving Repr, DecidableEq

/-- One entry of `daily_plan`:
`{day, lesson_plan, standards[], focus, resources}` where each rendered
resource carries its artifact references. -/
structure DayPlan where
  day : String
  lesson_plan : LessonPlan
  standards : List Standard
  focus : String
  resources : List (String × List ArtifactRef)
deriving Repr

/-- The weekly plan output envelope returned to the caller. -/
structure WeeklyPlan where
  plan_id : String
  student_id : String
  week_of : Int
  weekly_overview : WeeklyOverview
  daily_plan : List DayPlan
deriving Repr

/-- A persisted student record: id plus the parsed progress and plan
rules blobs. -/
structure StudentRecord where
  student_id : String
  progress : StudentProgress
  rules : PlanRules
deriving Repr

/-- Deterministic, unique per-(plan, day, kind) artifact path. -/
def artifactPath (planId : String) (dayIdx : Nat) (kind : String)
    (format : String) : String :=
  "artifacts/" ++ planId ++ "/" ++ toString dayIdx ++ "/" ++ kind ++ "." ++ format

/-- Modelled from the spec: per-resource processing of the reconciliation
stage (§4.6, §7) — validate and construct through the factory, then
render PDF and PNG artifacts; a validation, unsupported-kind, or render
failure is returned as an error for this single resource. -/
def processResource (registry : Registry) (env : GenerationEnv)
    (planId : String) (now : Int) (dayIdx : Nat) (kind : String)
    (payload : ResourcePayload) :
    Except CoreError (String × List ArtifactRef) := do
  let w ← factoryCreate registry kind payload
  let pdfPath := artifactPath planId dayIdx kind "pdf"
  let pngPath := artifactPath planId dayIdx kind "png"
  match env.renderFailure pdfPath with
  | some msg => .error (.renderError msg)
  | none =>
      let pdf := renderWorksheetToPdf w pdfPath now
      let png := renderWorksheetToImage w pngPath now
      .ok (kind, [⟨pdf.format, pdf.path⟩, ⟨png.format, png.path⟩])

/-- Modelled from the spec: the fallback lesson stub used when the
day-content collaborator fails or returns malformed JSON (§7). -/
def fallbackLesson (focus : String) : LessonPlan :=
  { objective := "Practice: " ++ focus
    materials_needed := []
    procedure := ["Review the day's standards together."] }

/-- Modelled from the spec: building one `daily_plan` entry in the
reconciliation stage (§4.6) — resolve the day's standards, take the
collaborator's lesson (or the fallback stub on DayContentError), and
process each requested resource, skipping any resource that fails so
siblings still render. -/
def buildDayPlan (registry : Registry) (env : GenerationEnv)
    (catalog : List Standard) (planId : String) (now : Int) (dayIdx : Nat)
    (assignment : DayAssignment) : DayPlan :=
  let standards := catalog.filter (fun s => s.id ∈ assignment.standard_ids)
  match env.dayOutcome dayIdx with
  | .content c =>
      { day := assignment.day
        lesson_plan := c.lesson_plan
        standards := standards
        focus := assignment.focus
        resources := c.resources.filterMap fun kp =>
          (processResource registry env planId now dayIdx kp.1 kp.2).toOption }
  | .malformedJson _ =>
      { day := assignment.day
        lesson_plan := fallbackLesson assignment.focus
        standards := standards
        focus := assignment.focus
        resources := [] }
  | .collaboratorFailure _ =>
      { day := assignment.day
        lesson_plan := fallbackLesson assignment.focus
        standards := standards
        focus := assignment.focus
        resources := [] }

/-- Student lookup at the orchestration boundary. -/
def findStudent (students : List StudentRecord) (sid : String) :
    Option StudentRecord :=
  students.find? (fun r => r.student_id == sid)

/-- Modelled from the spec: the K-12 input contract on the requested
grade level — grades outside 0..12 are an input-contract violation. -/
def validGrade (grade : Nat) : Bool :=
  grade ≤ 12

/-- Modelled from the spec: the missing weekly-plan orchestration
(§4.5–§4.6, §7) — hard-fail only on catalog-level or input-contract
violations (unknown student, invalid grade level); then select
candidates, run the scaffold stage (falling back on scaffold failure),
and reconcile each of the five days, with every per-day and per-resource
failure isolated to its day or resource. -/
def generateWeeklyPlan (catalog : List Standard)
    (students : List StudentRecord) (registry : Registry)
    (env : GenerationEnv) (sid : String) (grade : Nat) (subject : String)
    (now : Int) : Except String WeeklyPlan :=
  match findStudent students sid with
  | none => .error ("Student not found: " ++ sid)
  | some sr =>
      if validGrade grade then
        let candidates :=
          selectStandardsDefault catalog sr.progress sr.rules subject grade now
        let scaffold := scaffoldStage candidates env.scaffoldOutput
        let planId := "plan_" ++ sid ++ "_" ++ toString now
        .ok
          { plan_id := planId
            student_id := sid
            week_of := now
            weekly_overview := scaffold.weekly_overview
            daily_plan := scaffold.daily_assignments.enum.map fun ia =>
              buildDayPlan registry env catalog planId now ia.1 ia.2 }
      else .error ("Invalid grade level: " ++ toString grade)

end Curriculum

namespace Curriculum

/-- `ProgressBlob` from `src/frontend/lib/api.ts`: the shape the
frontend expects the progress blob to parse into. -/
structure ProgressBlob where
  mastered_standards : List String
  developing_standards : List String
deriving Repr, DecidableEq

/-- The silent default ProgressBlob. -/
def emptyProgressBlob : ProgressBlob :=
  { mastered_standards := [], developing_standards := [] }

/-- Shallow embedding of `parseProgress` from `src/frontend/lib/api.ts`
(lines 129–138).  `JSON.parse` (plus the implicit cast to
`ProgressBlob`) is abstracted as the `jsonParse` parameter, with `none`
standing for a thrown parse error; the falsy guard
`if (!progressBlob)` also defaults on the empty string. -/
def parseProgress (jsonParse : String → Option ProgressBlob)
    (progressBlob : Option String) : ProgressBlob :=
  match progressBlob with
  | none => emptyProgressBlob
  | some s =>
      if s == "" then emptyProgressBlob
      else
        match jsonParse s with
        | some v => v
        | none => emptyProgressBlob

end Curriculum

namespace Curriculum

-- Sanity checks on concrete data (selection engine).

/-- A small concrete catalog for sanity checks. -/
def sanityCatalog : List Standard :=
  [⟨"m2", "VA", "Math", 1, "b"⟩, ⟨"m1", "VA", "Math", 1, "a"⟩,
   ⟨"m3", "VA", "Math", 1, "c"⟩, ⟨"r1", "VA", "Reading", 1, "d"⟩,
   ⟨"m4", "VA", "Math", 2, "e"⟩]

def sanityProgress : StudentProgress :=
  { mastered_standards := ["m3"]
    developing_standards := ["m2"]
    standard_metadata := [("m3", ⟨0, Feedback.MASTERED, 3⟩)] }

def sanityRules : PlanRules :=
  { allowed_materials := ["Crayons"]
    no_review_mastered_for_weeks := 3
    theme_rules := { force_weekly_theme := false, theme_subjects := [] }
    parent_notes := ""
    activity_bias := 0 }

example :
    (selectStandardsDefault sanityCatalog sanityProgress sanityRules
      "Math" 1 1).map (·.id) = ["m2", "m1"] := by decide

example :
    (selectStandardsDefault sanityCatalog sanityProgress sanityRules
      "Math" 1 3).map (·.id) = ["m2", "m1", "m3"] := by decide

example :
    (selectStandards sanityCatalog sanityProgress sanityRules
      "Math" 1 3 1).map (·.id) = ["m2"] := by decide

-- Sanity checks for the scaffold planner.

example :
    ((fallbackScaffold (sanityCatalog.take 2)).daily_assignments.map
      (·.standard_ids)) = [["m2"], ["m1"], ["m2"], ["m1"], ["m2"]] := by decide

example :
    (scaffoldStage (sanityCatalog.take 2)
      (some { weekly_overview := ⟨"", ""⟩
              daily_assignments :=
                [⟨"Monday", ["m1", "zz"], "f"⟩, ⟨"Tuesday", [], "f"⟩,
                 ⟨"Wednesday", ["m2"], "f"⟩, ⟨"Thursday", [], "f"⟩,
                 ⟨"Friday", [], "f"⟩] })).daily_assignments.map
      (·.standard_ids) = [["m1"], [], ["m2"], [], []] := by decide

end Curriculum

namespace Curriculum

-- Helper lemmas about the selection ordering.

theorem selectionLE_total (p : StudentProgress) :
    ∀ a b, selectionLE p a b ∨ selectionLE p b a := by
  intro a b
  rcases Nat.lt_trichotomy (priorityRank p a.id) (priorityRank p b.id) with h | h | h
  · exact Or.inl (Or.inl h)
  · rcases le_total a.id.data b.id.data with hle | hle
    · exact Or.inl (Or.inr ⟨h, hle⟩)
    · exact Or.inr (Or.inr ⟨h.symm, hle⟩)
  · exact Or.inr (Or.inl h)

theorem selectionLE_trans (p : StudentProgress) :
    ∀ a b c, selectionLE p a b → selectionLE p b c → selectionLE p a c := by
  intro a b c hab hbc
  rcases hab with h1 | ⟨h1, h1'⟩
  · rcases hbc with h2 | ⟨h2, h2'⟩
    · exact Or.inl (h1.trans h2)
    · exact Or.inl (h2 ▸ h1)
  · rcases hbc with h2 | ⟨h2, h2'⟩
    · exact Or.inl (h1 ▸ h2)
    · exact Or.inr ⟨h1.trans h2, h1'.trans h2'⟩

/-- Any member of the truncated selection output was an eligible
candidate (passed the grade/subject filter and is not under cooldown). -/
theorem mem_select_mem_eligible {catalog : List Standard} {p : StudentProgress}
    {rules : PlanRules} {subject : String} {grade : Nat} {now : Int}
    {limit : Nat} {s : Standard}
    (h : s ∈ selectStandards catalog p rules subject grade now limit) :
    s ∈ eligibleCandidates catalog p rules subject grade now := by
  have h1 : s ∈ orderedCandidates catalog p rules subject grade now :=
    List.mem_of_mem_take h
  exact (List.perm_insertionSort (selectionLE p) _).subset h1

/-- C7: the output of `select` has length at most `limit` (at most 10
with the default limit) and is ordered by the selection ordering:
priority rank ascending — developing standards (rank 0) before entirely
new standards (rank 1) before mastered review candidates (rank 2) — with
ties broken by ascending standard id. -/
theorem select_limit_and_priority_order (catalog : List Standard)
    (p : StudentProgress) (rules : PlanRules) (subject : String)
    (grade : Nat) (now : Int) (limit : Nat) :
    (selectStandards catalog p rules subject grade now limit).length ≤ limit
      ∧ List.Sorted (selectionLE p)
          (selectStandards catalog p rules subject grade now limit)
      ∧ (selectStandardsDefault catalog p rules subject grade now).length ≤ 10 := by
  haveI : IsTotal Standard (selectionLE p) := ⟨selectionLE_total p⟩
  haveI : IsTrans Standard (selectionLE p) := ⟨selectionLE_trans p⟩
  refine ⟨List.length_take_le _ _, ?_, List.length_take_le _ _⟩
  have hsorted : List.Sorted (selectionLE p)
      (orderedCandidates catalog p rules subject grade now) :=
    List.sorted_insertionSort (selectionLE p) _
  exact hsorted.sublist (List.take_sublist _ _)

end Curriculum

namespace Curriculum

/-- C4: rendering is a deterministic function of the worksheet content:
the vector (PDF) byte content, checksum and size of the artifact are
identical across renders at different clock values — only the
bookkeeping field `generated_at` sees the clock, so rendering the same
`Worksheet` twice yields byte-identical vector output. -/
theorem render_vector_deterministic (w : Worksheet) (path : String)
    (t1 t2 : Int) :
    (renderWorksheetToPdf w path t1).content
        = (renderWorksheetToPdf w path t2).content
      ∧ (renderWorksheetToPdf w path t1).checksum
        = (renderWorksheetToPdf w path t2).checksum
      ∧ (renderWorksheetToPdf w path t1).size
        = (renderWorksheetToPdf w path t2).size
      ∧ (renderWorksheetToPdf w path t1).content = vectorContent w :=
  ⟨rfl, rfl, rfl, rfl⟩

/-- C8: an unregistered kind makes the factory raise
`unsupportedTypeError`, which is distinct from every `validationError`,
for every payload. -/
theorem factory_unknown_kind (registry : Registry) (kind : String)
    (payload : ResourcePayload) (h : registry.lookup kind = none) :
    factoryCreate registry kind payload
        = .error (.unsupportedTypeError kind)
      ∧ ∀ msg, CoreError.unsupportedTypeError kind
          ≠ CoreError.validationError msg := by
  constructor
  · unfold factoryCreate
    rw [h]
  · intro msg hcontra
    exact CoreError.noConfusion hcontra

/-- A concrete math payload used by witnesses. -/
def sampleMathPayload : MathPayload :=
  { title := none
    instructions := none
    problems := [⟨3, 2, "+"⟩, ⟨15, 7, "-"⟩]
    metadata := [] }

/-- Witness for C8 at the default registry and the unregistered kind
`"crossword"`. -/
theorem factory_unknown_kind_witness :
    factoryCreate defaultRegistry "crossword" (.math sampleMathPayload)
        = .error (.unsupportedTypeError "crossword")
      ∧ CoreError.unsupportedTypeError "crossword"
        ≠ CoreError.validationError "crossword" :=
  have h := factory_unknown_kind defaultRegistry "crossword"
    (.math sampleMathPayload) rfl
  ⟨h.1, h.2 "crossword"⟩

end Curriculum

namespace Curriculum

/-- C10: `parseProgress` is total by construction and never throws; a
null blob parses to the silent default, a string the JSON parser rejects
parses to the silent default, and a string the JSON parser accepts
parses to the parsed object — so a corrupt or missing blob is
indistinguishable from a student with no recorded progress.  The
statement holds for every JSON parser that (like `JSON.parse`) rejects
the empty string. -/
theorem parseProgress_silent_default (jsonParse : String → Option ProgressBlob)
    (hempty : jsonParse "" = none) :
    parseProgress jsonParse none = emptyProgressBlob
      ∧ (∀ s, jsonParse s = none →
          parseProgress jsonParse (some s) = emptyProgressBlob)
      ∧ (∀ s v, jsonParse s = some v → parseProgress jsonParse (some s) = v) := by
  refine ⟨rfl, ?_, ?_⟩
  · intro s hs
    by_cases h : s = ""
    · simp [parseProgress, h]
    · simp [parseProgress, h, hs]
  · intro s v hv
    have h : s ≠ "" := by
      intro h
      rw [h, hempty] at hv
      exact Option.noConfusion hv
    simp [parseProgress, h, hv]

/-- A concrete stand-in JSON parser used by the C10 witness. -/
def sampleJsonParse : String → Option ProgressBlob := fun s =>
  if s == "good json" then
    some { mastered_standards := ["VA.MATH.K.1a"]
           developing_standards := ["VA.MATH.K.2a"] }
  else none

/-- Witness for C10 at a concrete parser and concrete blobs. -/
theorem parseProgress_silent_default_witness :
    parseProgress sampleJsonParse none = emptyProgressBlob
      ∧ parseProgress sampleJsonParse (some "corrupt blob") = emptyProgressBlob
      ∧ parseProgress sampleJsonParse (some "good json")
        = { mastered_standards := ["VA.MATH.K.1a"]
            developing_standards := ["VA.MATH.K.2a"] } :=
  have h := parseProgress_silent_default sampleJsonParse (by decide)
  ⟨h.1, h.2.1 "corrupt blob" (by decide), h.2.2 "good json" _ (by decide)⟩

end Curriculum

namespace Curriculum

/-- Every standard id a fallback day assignment carries comes from the
candidate list (it is the round-robin pick for that day). -/
theorem fallback_ids_subset (candidates : List Standard) (d : DayAssignment)
    (hd : d ∈ (fallbackScaffold candidates).daily_assignments)
    (sid : String) (hs : sid ∈ d.standard_ids) :
    sid ∈ candidates.map (·.id) := by
  simp only [fallbackScaffold, List.mem_map] at hd
  obtain ⟨i, hi, rfl⟩ := hd
  simp only [Option.mem_toList, Option.mem_def, Option.map_eq_some'] at hs
  obtain ⟨s, hsome, hsid⟩ := hs
  exact List.mem_map.mpr ⟨s, List.getElem?_mem hsome, hsid⟩

/-- C2: after the planner's validate/repair step (and equally in the
fallback stage), every `standard_id` appearing in the accepted scaffold's
`daily_assignments` is a member of the candidate list supplied to the
scaffold stage. -/
theorem scaffold_coverage (candidates : List Standard)
    (collab : Option Scaffold) (d : DayAssignment) (sid : String)
    (hd : d ∈ (scaffoldStage candidates collab).daily_assignments)
    (hs : sid ∈ d.standard_ids) :
    sid ∈ candidates.map (·.id) := by
  cases collab with
  | none => exact fallback_ids_subset candidates d hd sid hs
  | some raw =>
      by_cases h : wellFormedScaffold raw
      · simp only [scaffoldStage, h, if_true] at hd
        simp only [repairScaffold, List.mem_map] at hd
        obtain ⟨d0, hd0, rfl⟩ := hd
        simp only [List.mem_filter] at hs
        obtain ⟨a, ha, haid⟩ := of_decide_eq_true hs.2
        exact List.mem_map.mpr ⟨a, ha, haid⟩
      · simp only [scaffoldStage, h, if_false] at hd
        exact fallback_ids_subset candidates d hd sid hs

/-- Witness for C2: a repaired collaborator output and the fallback both
reference only candidate ids. -/
theorem scaffold_coverage_witness :
    (⟨"Monday", ["m1"], "f"⟩ : DayAssignment)
        ∈ (scaffoldStage (sanityCatalog.take 2)
            (some { weekly_overview := ⟨"", ""⟩
                    daily_assignments :=
                      [⟨"Monday", ["m1", "zz"], "f"⟩, ⟨"Tuesday", [], "f"⟩,
                       ⟨"Wednesday", ["m2"], "f"⟩, ⟨"Thursday", [], "f"⟩,
                       ⟨"Friday", [], "f"⟩] })).daily_assignments
      ∧ "m1" ∈ (sanityCatalog.take 2).map (·.id) :=
  ⟨by decide,
   scaffold_coverage (sanityCatalog.take 2)
     (some { weekly_overview := ⟨"", ""⟩
             daily_assignments :=
               [⟨"Monday", ["m1", "zz"], "f"⟩, ⟨"Tuesday", [], "f"⟩,
                ⟨"Wednesday", ["m2"], "f"⟩, ⟨"Thursday", [], "f"⟩,
                ⟨"Friday", [], "f"⟩] })
     ⟨"Monday", ["m1"], "f"⟩ "m1" (by decide) (by decide)⟩

/-- Scaffold-stage failure: the collaborator erred or timed out (`none`)
or returned a malformed envelope. -/
def scaffoldFailure : Option Scaffold → Bool
  | none => true
  | some raw => !(wellFormedScaffold raw)

/-- The round-robin content of day `i` of the fallback scaffold. -/
theorem fallback_entry_round_robin (candidates : List Standard)
    (hne : candidates ≠ []) (i : Nat)
    (hi : i < (fallbackScaffold candidates).daily_assignments.length) :
    ∃ hj : i % candidates.length < candidates.length,
      ((fallbackScaffold candidates).daily_assignments.get ⟨i, hi⟩).standard_ids
        = [(candidates.get ⟨i % candidates.length, hj⟩).id] := by
  have hj : i % candidates.length < candidates.length :=
    Nat.mod_lt _ (List.length_pos.mpr hne)
  refine ⟨hj, ?_⟩
  have hi5 : i < 5 := by
    simpa [fallbackScaffold] using hi
  simp [fallbackScaffold, List.get_eq_getElem, List.getElem_map,
    List.getElem_range, List.getElem?_eq_getElem hj]

/-- C3: whenever the scaffold stage fails (collaborator error/timeout or
malformed output) and the candidate list is non-empty, the planner uses
the fallback scaffold, whose plan has exactly 5 daily entries with day
`i` assigned exactly the one candidate at index `i mod k` — round-robin,
wrapping when fewer than 5 candidates exist, so every day has content. -/
theorem scaffold_failure_round_robin (candidates : List Standard)
    (collab : Option Scaffold) (hne : candidates ≠ [])
    (hfail : scaffoldFailure collab = true) :
    scaffoldStage candidates collab = fallbackScaffold candidates
      ∧ (scaffoldStage candidates collab).daily_assignments.length = 5
      ∧ ∀ i (hi : i < (scaffoldStage candidates collab).daily_assignments.length),
          ∃ hj : i % candidates.length < candidates.length,
            ((scaffoldStage candidates collab).daily_assignments.get
                ⟨i, hi⟩).standard_ids
              = [(candidates.get ⟨i % candidates.length, hj⟩).id] := by
  have heq : scaffoldStage candidates collab = fallbackScaffold candidates := by
    cases collab with
    | none => rfl
    | some raw =>
        simp only [scaffoldFailure, Bool.not_eq_true'] at hfail
        simp [scaffoldStage, hfail]
  refine ⟨heq, ?_, ?_⟩
  · rw [heq]
    simp [fallbackScaffold]
  · intro i
    rw [heq]
    intro hi
    exact fallback_entry_round_robin candidates hne i hi

/-- Witness for C3: two candidates wrap round-robin across the week. -/
theorem scaffold_failure_round_robin_witness :
    scaffoldStage (sanityCatalog.take 2) none
        = fallbackScaffold (sanityCatalog.take 2)
      ∧ (scaffoldStage (sanityCatalog.take 2) none).daily_assignments.length = 5
      ∧ ((fallbackScaffold (sanityCatalog.take 2)).daily_assignments.map
          (·.standard_ids)) = [["m2"], ["m1"], ["m2"], ["m1"], ["m2"]] :=
  have h := scaffold_failure_round_robin (sanityCatalog.take 2) none
    (by decide) (by decide)
  ⟨h.1, h.2.1, by decide⟩

end Curriculum

namespace Curriculum

/-- C5: a request whose primary collection is empty is rejected with a
`validationError` — for math specifically with the message
"At least one problem is required" — so no worksheet (and hence no
artifact) can be produced from it; a silently-empty worksheet is never
built. -/
theorem empty_primary_collection_rejected
    (pm : MathPayload) (pr : ReadingPayload) (pf : FeatureMatrixPayload)
    (po : OddOneOutPayload) (pt : TreeMapPayload)
    (hm : pm.problems = []) (hr : pr.questions = []) (hf : pf.items = [])
    (ho : po.rows = []) (ht : pt.branches = []) :
    validateMathWorksheet pm
        = .error (.validationError "At least one problem is required")
      ∧ (∃ m, validateReadingWorksheet pr = .error (.validationError m))
      ∧ (∃ m, validateFeatureMatrix pf = .error (.validationError m))
      ∧ (∃ m, validateOddOneOut po = .error (.validationError m))
      ∧ (∃ m, validateTreeMap pt = .error (.validationError m)) := by
  refine ⟨?_, ?_, ?_, ?_, ?_⟩
  · simp [validateMathWorksheet, hm]
  · unfold validateReadingWorksheet
    rw [hr]
    split_ifs with h1 h2 <;> first | exact ⟨_, rfl⟩ | simp_all
  · unfold validateFeatureMatrix
    rw [hf]
    split_ifs with h1 <;> first | exact ⟨_, rfl⟩ | simp_all
  · unfold validateOddOneOut
    rw [ho]
    split_ifs with h1 <;> first | exact ⟨_, rfl⟩ | simp_all
  · unfold validateTreeMap
    rw [ht]
    split_ifs with h1 h2 <;> first | exact ⟨_, rfl⟩ | simp_all

/-- Witness for C5 at concrete empty-collection payloads. -/
theorem empty_primary_collection_rejected_witness :
    validateMathWorksheet ⟨none, none, [], []⟩
        = .error (.validationError "At least one problem is required")
      ∧ (∃ m, validateReadingWorksheet ⟨"t", "p", [], [], none, none, []⟩
          = .error (.validationError m))
      ∧ (∃ m, validateFeatureMatrix ⟨[], ["Has Fur"], false, none, none, []⟩
          = .error (.validationError m))
      ∧ (∃ m, validateOddOneOut ⟨[], false, none, none, none, []⟩
          = .error (.validationError m))
      ∧ (∃ m, validateTreeMap ⟨"root", [], [], none, none, []⟩
          = .error (.validationError m)) :=
  empty_primary_collection_rejected
    ⟨none, none, [], []⟩ ⟨"t", "p", [], [], none, none, []⟩
    ⟨[], ["Has Fur"], false, none, none, []⟩ ⟨[], false, none, none, none, []⟩
    ⟨"root", [], [], none, none, []⟩ rfl rfl rfl rfl rfl

end Curriculum

namespace Curriculum

/-- C9: in a successfully validated reading request, every question's
effective `response_lines` is at least 1; a question that omitted
`response_lines` gets the default 2, and a requested value below 1 is
clamped up to 1. -/
theorem reading_response_lines_clamped (p : ReadingPayload)
    (w : ReadingWorksheet) (hok : validateReadingWorksheet p = .ok w) :
    w.questions.length = p.questions.length
      ∧ ∀ i (hi : i < w.questions.length) (hp : i < p.questions.length),
          1 ≤ (w.questions.get ⟨i, hi⟩).response_lines
          ∧ ((p.questions.get ⟨i, hp⟩).response_lines = none →
              (w.questions.get ⟨i, hi⟩).response_lines = 2)
          ∧ ∀ v, (p.questions.get ⟨i, hp⟩).response_lines = some v → v < 1 →
              (w.questions.get ⟨i, hi⟩).response_lines = 1 := by
  have hq : w.questions = p.questions.map normalizeQuestion := by
    unfold validateReadingWorksheet at hok
    split_ifs at hok
    simp only [Except.ok.injEq] at hok
    subst hok
    rfl
  constructor
  · rw [hq, List.length_map]
  · intro i hi hp
    have hget : w.questions.get ⟨i, hi⟩
        = normalizeQuestion (p.questions.get ⟨i, hp⟩) := by
      have h1 := List.get_of_eq hq ⟨i, hi⟩
      simpa [List.get_eq_getElem, List.getElem_map] using h1
    rw [hget]
    unfold normalizeQuestion
    refine ⟨le_max_left _ _, ?_, ?_⟩
    · intro hnone
      rw [hnone]
      exact max_eq_right (by decide)
    · intro v hv hlt
      rw [hv]
      simp only [Option.getD_some]
      exact max_eq_left hlt.le

/-- A concrete reading payload: one question omits `response_lines`, one
asks for 5, one asks for 0 (below the minimum). -/
def sampleReadingPayload : ReadingPayload :=
  { passage_title := "The Busy Squirrel"
    passage := "Sam the squirrel was very busy."
    questions := [⟨"What was Sam doing?", none⟩,
                  ⟨"Where did Sam hide the acorns?", some 5⟩,
                  ⟨"How did Sam feel?", some 0⟩]
    vocabulary := [⟨"acorn", none, none⟩]
    title := none
    instructions := none
    metadata := [] }

/-- The worksheet the validator produces for `sampleReadingPayload`. -/
def sampleReadingWorksheet : ReadingWorksheet :=
  { passage_title := "The Busy Squirrel"
    passage := "Sam the squirrel was very busy."
    questions := [⟨"What was Sam doing?", 2⟩,
                  ⟨"Where did Sam hide the acorns?", 5⟩,
                  ⟨"How did Sam feel?", 1⟩]
    vocabulary := [⟨"acorn", none, 1⟩]
    title := "Reading Comprehension"
    instructions :=
      "Read the passage carefully, then answer the questions and review the vocabulary."
    metadata := [] }

/-- Witness for C9: the defaulted question gets 2 lines and the
below-minimum request is clamped to 1. -/
theorem reading_response_lines_clamped_witness :
    sampleReadingWorksheet.questions.length
        = sampleReadingPayload.questions.length
      ∧ 1 ≤ (sampleReadingWorksheet.questions.get ⟨2, by decide⟩).response_lines
      ∧ (sampleReadingWorksheet.questions.get ⟨0, by decide⟩).response_lines = 2
      ∧ (sampleReadingWorksheet.questions.get ⟨2, by decide⟩).response_lines = 1 := by
  have h := reading_response_lines_clamped sampleReadingPayload
    sampleReadingWorksheet (by rfl)
  exact ⟨h.1, (h.2 2 (by decide) (by decide)).1,
    (h.2 0 (by decide) (by decide)).2.1 (by decide),
    (h.2 2 (by decide) (by decide)).2.2 0 (by decide) (by decide)⟩

end Curriculum

namespace Curriculum

/-- C1 (amended): with metadata `last_seen = T`, `last_feedback =
MASTERED`, `cooldown_weeks = W`, a standard's id appears nowhere in the
output of `select` at any evaluation time `now < T + W`; at any `now ≥
T + W` the standard (if it is in the catalog and passes the grade and
subject/theme filters) is among the ordered post-cooldown candidates,
and is in the output of `select` whenever the candidates are not cut by
the `limit` truncation. -/
theorem cooldown_gates_reselection (catalog : List Standard)
    (p : StudentProgress) (rules : PlanRules) (subject : String)
    (grade : Nat) (now : Int) (limit : Nat) (s : Standard) (T W : Int)
    (hmeta : lookupMeta p s.id
      = some { last_seen := T
               last_feedback := Feedback.MASTERED
               cooldown_weeks := W }) :
    (now < T + W →
        ∀ t ∈ selectStandards catalog p rules subject grade now limit,
          t.id ≠ s.id)
      ∧ (T + W ≤ now → s ∈ catalog →
          passesFilters rules subject grade s = true →
          s ∈ orderedCandidates catalog p rules subject grade now
            ∧ ((orderedCandidates catalog p rules subject grade now).length
                  ≤ limit →
                s ∈ selectStandards catalog p rules subject grade now limit)) := by
  constructor
  · intro hnow t ht heq
    have helig := mem_select_mem_eligible ht
    unfold eligibleCandidates at helig
    rw [List.mem_filter] at helig
    have hcool : underCooldown p now t.id = false := by
      simpa using helig.2
    rw [heq] at hcool
    unfold underCooldown at hcool
    rw [hmeta] at hcool
    simp only [beq_self_eq_true, Bool.true_and, decide_eq_false_iff_not] at hcool
    exact hcool (by omega)
  · intro hnow hcat hpass
    have hcool : underCooldown p now s.id = false := by
      unfold underCooldown
      rw [hmeta]
      simp only [beq_self_eq_true, Bool.true_and, decide_eq_false_iff_not]
      omega
    have helig : s ∈ eligibleCandidates catalog p rules subject grade now := by
      unfold eligibleCandidates
      rw [List.mem_filter]
      exact ⟨List.mem_filter.mpr ⟨hcat, hpass⟩, by simp [hcool]⟩
    have horder : s ∈ orderedCandidates catalog p rules subject grade now :=
      (List.perm_insertionSort (selectionLE p) _).mem_iff.mpr helig
    refine ⟨horder, fun hlen => ?_⟩
    unfold selectStandards
    rw [List.take_of_length_le hlen]
    exact horder

/-- The review candidate of the C1 counterexample. -/
def reviewStandard : Standard := ⟨"zz", "VA", "Math", 1, "review"⟩

/-- A catalog with ten developing standards plus one mastered review
standard, all of the same grade and subject. -/
def cooldownCatalog : List Standard :=
  reviewStandard ::
    ["d0", "d1", "d2", "d3", "d4", "d5", "d6", "d7", "d8", "d9"].map
      (fun i => ⟨i, "VA", "Math", 1, "dev"⟩)

/-- Progress for the C1 counterexample: `zz` was mastered at week 0 with
a 2-week cooldown; all ten `d·` standards are developing. -/
def cooldownProgress : StudentProgress :=
  { mastered_standards := ["zz"]
    developing_standards := ["d0", "d1", "d2", "d3", "d4", "d5", "d6", "d7", "d8", "d9"]
    standard_metadata := [("zz", ⟨0, Feedback.MASTERED, 2⟩)] }

/-- Counterexample to C1 as stated: at evaluation time `now = T + W`
(past cooldown), with all other filters equal, the mastered standard is
still absent from `select`'s output — ten developing candidates fill the
default limit of 10 and the low-priority review candidate is truncated
away. -/
theorem cooldown_presence_counterexample :
    lookupMeta cooldownProgress "zz"
        = some { last_seen := 0
                 last_feedback := Feedback.MASTERED
                 cooldown_weeks := 2 }
      ∧ reviewStandard ∈ cooldownCatalog
      ∧ passesFilters sanityRules "Math" 1 reviewStandard = true
      ∧ ((0 : Int) + 2 ≤ 2)
      ∧ reviewStandard
          ∉ selectStandardsDefault cooldownCatalog cooldownProgress
              sanityRules "Math" 1 2 := by
  decide

/-- The mastered standard of the sanity data set. -/
def m3Standard : Standard := ⟨"m3", "VA", "Math", 1, "c"⟩

/-- Witness for the amended C1: with `T = 0`, `W = 3`, the standard `m3`
is absent from the output at `now = 1 < 3` and, at `now = 3 ≥ 3`, is
among the ordered candidates and in the final output. -/
theorem cooldown_gates_reselection_witness :
    "m3" ∉ (selectStandards sanityCatalog sanityProgress sanityRules
        "Math" 1 1 10).map (·.id)
      ∧ m3Standard
          ∈ orderedCandidates sanityCatalog sanityProgress sanityRules "Math" 1 3
      ∧ m3Standard
          ∈ selectStandards sanityCatalog sanityProgress sanityRules
              "Math" 1 3 10 := by
  have h1 := cooldown_gates_reselection sanityCatalog sanityProgress
    sanityRules "Math" 1 1 10 m3Standard 0 3 (by rfl)
  have h2 := cooldown_gates_reselection sanityCatalog sanityProgress
    sanityRules "Math" 1 3 10 m3Standard 0 3 (by rfl)
  have hp := h2.2 (by decide) (by decide) (by decide)
  refine ⟨?_, hp.1, hp.2 (by decide)⟩
  intro hmem
  obtain ⟨t, ht, hid⟩ := List.mem_map.mp hmem
  exact h1.1 (by decide) t ht hid

end Curriculum

namespace Curriculum

/-- The scaffold stage always yields an envelope covering the 5
weekdays, whichever branch is taken. -/
theorem scaffoldStage_length (candidates : List Standard)
    (collab : Option Scaffold) :
    (scaffoldStage candidates collab).daily_assignments.length = 5 := by
  cases collab with
  | none => simp [scaffoldStage, fallbackScaffold]
  | some raw =>
      by_cases h : wellFormedScaffold raw
      · have h5 : raw.daily_assignments.length = 5 := by
          simpa [wellFormedScaffold] using h
        simp [scaffoldStage, h, repairScaffold, h5]
      · simp [scaffoldStage, h, fallbackScaffold]

/-- C6: the weekly-plan generation succeeds exactly when the student is
known and the grade level passes the input contract — over every
possible collaborator/environment behaviour (scaffold failure, per-day
content failure, per-resource validation, unsupported-kind or render
failure), so no per-day or per-resource error aborts the run — and every
produced plan covers all 5 days. -/
theorem weekly_plan_error_isolation (catalog : List Standard)
    (students : List StudentRecord) (registry : Registry)
    (env : GenerationEnv) (sid : String) (grade : Nat) (subject : String)
    (now : Int) :
    ((generateWeeklyPlan catalog students registry env sid grade subject
          now).isOk
        = ((findStudent students sid).isSome && validGrade grade))
      ∧ ∀ plan,
          generateWeeklyPlan catalog students registry env sid grade subject
              now = .ok plan →
            plan.daily_plan.length = 5 := by
  constructor
  · unfold generateWeeklyPlan
    cases hfind : findStudent students sid with
    | none => simp [Except.isOk, Except.toBool]
    | some sr =>
        by_cases hg : validGrade grade
        · simp [hg, Except.isOk, Except.toBool]
        · simp [hg, Except.isOk, Except.toBool]
  · intro plan hplan
    unfold generateWeeklyPlan at hplan
    split at hplan
    · exact Except.noConfusion hplan
    · split_ifs at hplan
      simp only [Except.ok.injEq] at hplan
      subst hplan
      simp [List.enum_length, scaffoldStage_length]

/-- One known student for the C6 witness. -/
def sampleStudents : List StudentRecord :=
  [{ student_id := "s1", progress := sanityProgress, rules := sanityRules }]

/-- An environment in which every collaborator call and every render
fails. -/
def sampleFailEnv : GenerationEnv :=
  { scaffoldOutput := none
    dayOutcome := fun _ => .collaboratorFailure "timeout"
    renderFailure := fun _ => some "disk full" }

/-- Witness for C6: with every collaborator failing, generation for a
known student still succeeds with a 5-day plan, while an unknown student
is a hard failure. -/
theorem weekly_plan_error_isolation_witness :
    (generateWeeklyPlan sanityCatalog sampleStudents defaultRegistry
        sampleFailEnv "s1" 1 "Math" 3).isOk = true
      ∧ (generateWeeklyPlan sanityCatalog sampleStudents defaultRegistry
          sampleFailEnv "s1" 1 "Math" 3).map (fun plan => plan.daily_plan.length)
          = .ok 5
      ∧ (generateWeeklyPlan sanityCatalog sampleStudents defaultRegistry
          sampleFailEnv "missing" 1 "Math" 3).isOk = false := by
  have h := weekly_plan_error_isolation sanityCatalog sampleStudents
    defaultRegistry sampleFailEnv "s1" 1 "Math" 3
  have h9 := weekly_plan_error_isolation sanityCatalog sampleStudents
    defaultRegistry sampleFailEnv "missing" 1 "Math" 3
  have hok : (generateWeeklyPlan sanityCatalog sampleStudents defaultRegistry
      sampleFailEnv "s1" 1 "Math" 3).isOk = true := by
    rw [h.1]
    rfl
  refine ⟨hok, ?_, by rw [h9.1]; rfl⟩
  cases hres : generateWeeklyPlan sanityCatalog sampleStudents defaultRegistry
      sampleFailEnv "s1" 1 "Math" 3 with
  | error e =>
      rw [hres] at hok
      exact Bool.noConfusion hok
  | ok plan =>
      simp [Except.map, h.2 plan hres]

end Curriculum
